import Mathlib

/-!
Verification of the scarif Grbl motion-control client
(`src/scarif/rail_control.py`, `src/scarif/cartridge_accessor.py`).

The Python code is shallowly embedded: Python strings are Lean `String`
(manipulated through their `List Char` data), the serial transport is an
explicit record holding a script of future `readline` results and the list of
bytes written so far, exceptions become an explicit error type, and numeric
values parsed from decimal strings are exact rationals (`ℚ`).  Python regular
expressions are embedded as executable first-match scanners specialised to the
three patterns occurring in the source.
-/

namespace Scarif

/-- Errors raised by the embedded code.  `attributeError a` models a Python
`AttributeError` caused by reading the undefined attribute `a`;
`valueError` models `ValueError` from `float()` or tuple unpacking;
`indexError` models `IndexError` from `[0]` on an empty `re.findall` result;
`keyError` models a dictionary lookup miss; `commandError`, `motionMode` and
`softLimit` model `GrblCommandException`, `GrblMotionModeExeption` and
`SoftLimitExceededException` with their message strings. -/
inductive Err where
  | attributeError (attr : String)
  | valueError
  | indexError
  | keyError
  | commandError (msg : String)
  | motionMode (msg : String)
  | softLimit (msg : String)
deriving DecidableEq

/-- Result of running a piece of embedded Python code: a value or a raised
exception. -/
inductive Res (α : Type) where
  | ok (a : α)
  | exn (e : Err)
deriving DecidableEq

/-! ### Python string primitives -/

/-- Characters considered whitespace by Python `str.strip()` (ASCII part). -/
def isPySpace (c : Char) : Bool :=
  c = ' ' || c = '\t' || c = '\n' || c = '\x0d' || c = '\x0b' || c = '\x0c'

/-- Python `str.strip()` on the character list. -/
def pyStripL (l : List Char) : List Char :=
  ((l.dropWhile isPySpace).reverse.dropWhile isPySpace).reverse

/-- Python `str.strip()`. -/
def pyStrip (s : String) : String := ⟨pyStripL s.data⟩

/-- Python `str.split(sep)` for a single-character separator, on character
lists.  Splits at every occurrence; the empty string yields `[[]]`. -/
def pySplitCore (sep : Char) : List Char → List (List Char)
  | [] => [[]]
  | c :: cs =>
    if c = sep then [] :: pySplitCore sep cs
    else
      match pySplitCore sep cs with
      | g :: gs => (c :: g) :: gs
      | [] => [[c]]

/-- Python `str.split(sep)` returning strings. -/
def pySplit (s : String) (sep : Char) : List String :=
  (pySplitCore sep s.data).map fun l => (⟨l⟩ : String)

/-- Does the pattern occur at the head of the list (`str.startswith`)? -/
def headIs : List Char → List Char → Bool
  | [], _ => true
  | _ :: _, [] => false
  | p :: ps, c :: cs => p = c && headIs ps cs

/-- Match a literal at the head of the input, returning the rest. -/
def matchLit : List Char → List Char → Option (List Char)
  | [], l => some l
  | _ :: _, [] => none
  | p :: ps, c :: cs => if p = c then matchLit ps cs else none

/-! ### Regex models

`rail_control.py` uses three regular expressions:
`Idle|Run|Hold|Door|Home|Alarm|Check` (state tokens),
`MPos\:[-+]?\d*\.\d+,[-+]?\d*\.\d+,[-+]?\d*\.\d+` (and the same with `WPos`),
and the anchored `^\$\d+=\d+` for settings lines.  Each is embedded as a
deterministic matcher; these patterns have no backtracking ambiguity since
`\d*` is always followed by a non-digit literal. -/

/-- A matcher takes the input suffix and returns the matched text and the
rest, or `none`. -/
abbrev Matcher := List Char → Option (List Char × List Char)

/-- First match of an alternation of literal words, in the order given
(Python alternation tries alternatives left to right). -/
def matchAlt (ws : List (List Char)) (l : List Char) : Option (List Char × List Char) :=
  match ws with
  | [] => none
  | w :: ws' =>
    match matchLit w l with
    | some r => some (w, r)
    | none => matchAlt ws' l

/-- The state-token vocabulary, in the alternation order of the source. -/
def stateWords : List (List Char) :=
  [['I','d','l','e'], ['R','u','n'], ['H','o','l','d'], ['D','o','o','r'],
   ['H','o','m','e'], ['A','l','a','r','m'], ['C','h','e','c','k']]

/-- Matcher for the state regex `Idle|Run|Hold|Door|Home|Alarm|Check`. -/
def matchState : Matcher := matchAlt stateWords

/-- Matcher for `[-+]?\d*\.\d+` (a signed decimal with mandatory fractional
digits), greedy like the Python pattern. -/
def matchDec : Matcher := fun l =>
  let sl : List Char × List Char :=
    match l with
    | c :: cs => if c = '-' || c = '+' then ([c], cs) else ([], l)
    | [] => ([], [])
  let ds := sl.2.takeWhile Char.isDigit
  match sl.2.dropWhile Char.isDigit with
  | '.' :: l3 =>
    let fs := l3.takeWhile Char.isDigit
    if fs = [] then none
    else some (sl.1 ++ ds ++ '.' :: fs, l3.dropWhile Char.isDigit)
  | _ => none

/-- Matcher for `marker` followed by three comma-separated signed decimals
(the `MPos:`/`WPos:` triple patterns). -/
def matchTriple (marker : List Char) : Matcher := fun l => do
  let r1 ← matchLit marker l
  let (d1, r2) ← matchDec r1
  let r3 ← matchLit [','] r2
  let (d2, r4) ← matchDec r3
  let r5 ← matchLit [','] r4
  let (d3, r6) ← matchDec r5
  some (marker ++ d1 ++ ',' :: d2 ++ ',' :: d3, r6)

/-- `re.findall(pat, s)[0]` for an unanchored pattern: the leftmost match
(scan start positions left to right). -/
def findFirst (m : Matcher) : List Char → Option (List Char)
  | [] => none
  | c :: cs =>
    match m (c :: cs) with
    | some (a, _) => some a
    | none => findFirst m cs

/-- The `MPos:` literal of the machine-position pattern. -/
def mposMarker : List Char := ['M','P','o','s',':']

/-- The `WPos:` literal of the work-position pattern. -/
def wposMarker : List Char := ['W','P','o','s',':']

/-! ### Status parsing (`XYGrblMotion.current_status`) -/

/-- The dictionary built by `current_status`: a state token and the X/Y
components of the machine and work positions, as strings. -/
structure GStatus where
  state : String
  m_pos : List String
  w_pos : List String
deriving DecidableEq

/-- The defaults installed before scanning the response lines. -/
def defaultStatus : GStatus :=
  ⟨"Unknown", ["Unknown", "Unknown"], ["Unknown", "Unknown"]⟩

/-- `r.startswith('<') and r.endswith('>')`. -/
def bracketed (s : String) : Bool :=
  headIs ['<'] s.data && headIs ['>'] s.data.reverse

/-- `re.findall(pos_re, r)[0].split(':')[1].split(',')[0:2]` — extract the
first two components of a position triple; `indexError` when the pattern does
not occur (`[0]` on an empty list). -/
def extractPos (marker : List Char) (r : String) : Res (List String) :=
  match findFirst (matchTriple marker) r.data with
  | none => .exn .indexError
  | some m =>
    match (pySplitCore ':' m).get? 1 with
    | none => .exn .indexError
    | some coords => .ok (((pySplitCore ',' coords).take 2).map fun l => (⟨l⟩ : String))

/-- Parse the first bracketed line: state token, then machine and work
position pairs, each failing with `indexError` when its regex finds
nothing. -/
def parseBracketLine (r : String) : Res GStatus :=
  match findFirst matchState r.data with
  | none => .exn .indexError
  | some st =>
    match extractPos mposMarker r with
    | .exn e => .exn e
    | .ok mp =>
      match extractPos wposMarker r with
      | .exn e => .exn e
      | .ok wp => .ok ⟨⟨st⟩, mp, wp⟩

/-- The scanning loop of `XYGrblMotion.current_status` over the stripped
response lines: the first line bracketed by `<`/`>` is parsed (and the loop
breaks); if none is bracketed the defaults survive. -/
def parseStatus : List String → Res GStatus
  | [] => .ok defaultStatus
  | r :: rest => if bracketed r then parseBracketLine r else parseStatus rest

/-! ### Numeric conversions

Coordinates travel as decimal strings; `float()` is embedded as exact parsing
into `ℚ` (the mathematical value of the decimal literal).  For the
three-decimal-place strings this protocol exchanges, equality of the parsed
IEEE doubles coincides with equality of these rationals. -/

/-- Value of a digit string. -/
def digitsVal (l : List Char) : Nat :=
  l.foldl (fun a c => a * 10 + (c.toNat - 48)) 0

/-- Python `float()` restricted to plain decimal literals
`[+-]? (\d+ | \d*.\d* with at least one digit)`; `none` models the
`ValueError` path. -/
def pyFloatL (l : List Char) : Option ℚ :=
  let sq : ℚ × List Char :=
    match l with
    | c :: cs => if c = '-' then (-1, cs) else if c = '+' then (1, cs) else (1, l)
    | [] => (1, [])
  let ip := sq.2.takeWhile Char.isDigit
  match sq.2.dropWhile Char.isDigit with
  | [] => if ip = [] then none else some (sq.1 * (digitsVal ip : ℚ))
  | '.' :: rest =>
    let fp := rest.takeWhile Char.isDigit
    if rest.dropWhile Char.isDigit ≠ [] then none
    else if ip = [] && fp = [] then none
    else some (sq.1 * ((digitsVal ip : ℚ) + (digitsVal fp : ℚ) / (10 ^ fp.length : ℚ)))
  | _ => none

/-- Python `float()` on a string. -/
def pyFloat (s : String) : Option ℚ := pyFloatL s.data

/-- Decimal digits of a natural number (fueled recursion; `fuel ≥ n` renders
all digits). -/
def natDigitsAux : Nat → Nat → List Char
  | 0, _ => []
  | fuel + 1, n =>
    if n = 0 then []
    else natDigitsAux fuel (n / 10) ++ [Char.ofNat (48 + n % 10)]

/-- Decimal rendering of a natural number. -/
def natDecimal (n : Nat) : List Char :=
  if n = 0 then ['0'] else natDigitsAux (n + 1) n

/-- Three zero-padded digits of `m % 1000`. -/
def pad3 (m : Nat) : List Char :=
  [Char.ofNat (48 + m / 100 % 10), Char.ofNat (48 + m / 10 % 10),
   Char.ofNat (48 + m % 10)]

/-- Python `'%.3f' % q`: round to three decimal places and render.  (Ties are
rounded up here; the C library rounds the underlying double half-to-even, but
a rational arising from a decimal string is never an exact half-thousandth
after the double conversion, so the divergence is unobservable on this
protocol's values.) -/
def fmt3 (q : ℚ) : String :=
  let n : ℤ := round (q * 1000)
  let a := n.natAbs
  ⟨(if n < 0 then ['-'] else []) ++ natDecimal (a / 1000) ++ '.' :: pad3 (a % 1000)⟩

/-! ### The serial transport and the wire framer (`GrblCtrl`) -/

/-- The serial port: open flag, a script of the raw strings future
`readline()` calls will return (an exhausted script models a port that only
times out,`readline` returning `''`), and the accumulated writes. -/
structure Transport where
  isOpen : Bool
  reads : List String
  writes : List String
deriving DecidableEq

/-- The literal acknowledgment line. -/
def okLine : String := "ok\r\n"

/-- `GrblCtrl._response`: read lines until one is empty (timeout) or exactly
`ok\r\n` (acknowledgment), stripping and accumulating every line read,
including the terminating one.  Returns the accumulated list and the
unconsumed part of the read script. -/
def respLoop : List String → List String × List String
  | [] => ([""], [])
  | r :: rs =>
    if r = "" ∨ r = okLine then ([pyStrip r], rs)
    else
      let p := respLoop rs
      (pyStrip r :: p.1, p.2)

/-- `GrblCtrl._command`: on an unopened port the error path evaluates
`self.port`, an attribute `GrblCtrl` never defines, so an `AttributeError`
is raised (not the intended `GrblSerialException`); otherwise the command is
written with a `'\n'` appended and the response loop is run. -/
def grblCommand (cmd : String) (t : Transport) : Res (List String) × Transport :=
  if t.isOpen then
    let p := respLoop t.reads
    (.ok p.1, ⟨true, p.2, t.writes ++ [cmd ++ "\n"]⟩)
  else
    (.exn (.attributeError "port"), t)

/-- `GrblCtrl._system_command`: require the `$` prefix before any wire
traffic. -/
def systemCommand (cmd : String) (t : Transport) : Res (List String) × Transport :=
  if headIs ['$'] cmd.data then grblCommand cmd t
  else (.exn (.commandError (cmd ++ " does not start with $")), t)

/-- `GrblCtrl._g_command`: require the `G` prefix before any wire traffic. -/
def gCommand (cmd : String) (t : Transport) : Res (List String) × Transport :=
  if headIs ['G'] cmd.data then grblCommand cmd t
  else (.exn (.commandError (cmd ++ " does not start with G")), t)

/-- `GrblCtrl.cycle_start`: `~` sent through the common command wrapper. -/
def cycleStart (t : Transport) : Res (List String) × Transport :=
  grblCommand "~" t

/-- `GrblCtrl.feed_hold`: `!` sent through the common command wrapper (the
`GrblTimeoutException` handler around it is dead code: that exception is
never raised). -/
def feedHold (t : Transport) : Res (List String) × Transport :=
  grblCommand "!" t

/-- `GrblCtrl.current_status`: the `?` status query through the common
command wrapper. -/
def statusQuery (t : Transport) : Res (List String) × Transport :=
  grblCommand "?" t

/-- `GrblCtrl.reset_grbl`: the `ctrl-x` (0x18) byte through the common
command wrapper. -/
def resetGrbl (t : Transport) : Res (List String) × Transport :=
  grblCommand "\x18" t

/-! ### Motion layer (`XYGrblMotion`) -/

/-- `XYGrblMotion.current_status`: issue the status query and parse the
response lines. -/
def xyCurrentStatus (t : Transport) : Res GStatus × Transport :=
  match statusQuery t with
  | (.exn e, t') => (.exn e, t')
  | (.ok lines, t') =>
    match parseStatus lines with
    | .exn e => (.exn e, t')
    | .ok s => (.ok s, t')

/-- The recognized-but-unsupported motion modes of `async_goto_x_y`. -/
def unsupportedModes : List String :=
  ["G1", "G2", "G3", "G38.2", "G38.3", "G38.4", "G38.5", "G80"]

/-- `XYGrblMotion.async_goto_x_y`: status precheck first; when the state is
not `Idle` the error path evaluates `self.state`, an attribute the class
never defines, raising `AttributeError` (not the intended
`GrblMotionModeExeption`); for `G0` the coordinates are parsed, formatted to
three decimals and dispatched as a `G`-command; recognized-but-unsupported
modes raise `... not implemented yet.`; anything else raises
`... not a valid motion mode.`. -/
def asyncGotoXY (x y mode : String) (t : Transport) : Res Unit × Transport :=
  match xyCurrentStatus t with
  | (.exn e, t1) => (.exn e, t1)
  | (.ok s, t1) =>
    if s.state ≠ "Idle" then (.exn (.attributeError "state"), t1)
    else if mode = "G0" then
      match pyFloat x, pyFloat y with
      | some xq, some yq =>
        match gCommand (mode ++ " X" ++ fmt3 xq ++ " Y" ++ fmt3 yq) t1 with
        | (.exn e, t2) => (.exn e, t2)
        | (.ok _, t2) => (.ok (), t2)
      | _, _ => (.exn .valueError, t1)
    else if mode ∈ unsupportedModes then
      (.exn (.motionMode (mode ++ " not implemented yet.")), t1)
    else
      (.exn (.motionMode (mode ++ " not a valid motion mode.")), t1)

/-- Outcome of the (fuel-indexed) synchronous completion loop: `done` when
the convergence test passed, `running` when the fuel ran out with the loop
still going (the real loop has no bound and would keep polling), `fail` when
an exception escaped an iteration. -/
inductive PollOutcome where
  | done
  | running
  | fail (e : Err)
deriving DecidableEq

/-- The completion poll loop of `XYGrblMotion.goto_x_y`, fuel-indexed (each
unit of fuel is one loop iteration; the source loop is unbounded).  Each
iteration queries status, unpacks the work position pair, computes
`float(x) - float(x_cur)` and `float(y) - float(y_cur)`, terminates when the
state is `Idle` and both differences are zero, and otherwise records a 0.5
time-unit sleep and repeats.  Returns the outcome, the final transport and
the list of sleeps performed. -/
def pollLoop (x y : String) : Nat → Transport → PollOutcome × Transport × List ℚ
  | 0, t => (.running, t, [])
  | fuel + 1, t =>
    match xyCurrentStatus t with
    | (.exn e, t1) => (.fail e, t1, [])
    | (.ok s, t1) =>
      match s.w_pos with
      | [xc, yc] =>
        match pyFloat x, pyFloat xc, pyFloat y, pyFloat yc with
        | some xq, some xcq, some yq, some ycq =>
          if s.state = "Idle" ∧ xq - xcq = 0 ∧ yq - ycq = 0 then (.done, t1, [])
          else
            let p := pollLoop x y fuel t1
            (p.1, p.2.1, (1 / 2 : ℚ) :: p.2.2)
        | _, _, _, _ => (.fail .valueError, t1, [])
      | _ => (.fail .valueError, t1, [])

/-- `XYGrblMotion.goto_x_y`: the asynchronous dispatch followed by the
completion poll loop. -/
def gotoXY (x y mode : String) (fuel : Nat) (t : Transport) :
    PollOutcome × Transport × List ℚ :=
  match asyncGotoXY x y mode t with
  | (.exn e, t1) => (.fail e, t1, [])
  | (.ok _, t1) => pollLoop x y fuel t1

/-! ### Soft-limit guard (`Head.goto_x_y`) -/

/-- The chained comparison `float(lims[0]) <= float(v) <= float(lims[1])`
with Python's evaluation order: the upper bound is only parsed when the
first comparison holds. -/
def softLimitCheck (lims : String × String) (v : String) : Res Bool :=
  match pyFloat lims.1 with
  | none => .exn .valueError
  | some lo =>
    match pyFloat v with
    | none => .exn .valueError
    | some vq =>
      if lo ≤ vq then
        match pyFloat lims.2 with
        | none => .exn .valueError
        | some hi => .ok (vq ≤ hi)
      else .ok false

/-- `Head.goto_x_y`: the inclusive per-axis soft-limit guard, raising
`SoftLimitExceededException` with the offending value and bounds, before the
inherited synchronous move runs; nothing touches the transport on a guard
failure. -/
def headGotoXY (xlims ylims : String × String) (x y : String) (fuel : Nat)
    (t : Transport) : PollOutcome × Transport × List ℚ :=
  match softLimitCheck xlims x with
  | .exn e => (.fail e, t, [])
  | .ok bx =>
    if bx = false then
      (.fail (.softLimit (x ++ " out of range [" ++ xlims.1 ++ " " ++ xlims.2 ++ "]")),
       t, [])
    else
      match softLimitCheck ylims y with
      | .exn e => (.fail e, t, [])
      | .ok by_ =>
        if by_ = false then
          (.fail (.softLimit (y ++ " out of range [" ++ ylims.1 ++ " " ++ ylims.2 ++ "]")),
           t, [])
        else gotoXY x y "G0" fuel t

/-! ### Settings codec (`GrblSettings`) -/

/-- The static description catalog `GrblSettings._settings_map`. -/
def settingsMap : List (String × String) :=
  [("$0", "step pulse, usec"),
   ("$1", "step idle delay, msec"),
   ("$2", "step port invert mask:00000000"),
   ("$3", "dir port invert mask:00000011"),
   ("$4", "step enable invert, bool"),
   ("$5", "limit pins invert, bool"),
   ("$6", "probe pin invert, bool"),
   ("$10", "status report mask:00000011"),
   ("$11", "junction deviation, mm"),
   ("$12", "arc tolerance, mm"),
   ("$13", "report inches, bool"),
   ("$20", "soft limits, bool"),
   ("$21", "hard limits, bool"),
   ("$22", "homing cycle, bool"),
   ("$23", "homing dir invert mask:00000011"),
   ("$24", "homing feed, mm/min"),
   ("$25", "homing seek, mm/min"),
   ("$26", "homing debounce, msec"),
   ("$27", "homing pull-off, mm"),
   ("$100", "x, step/mm"),
   ("$101", "y, step/mm"),
   ("$102", "z, step/mm"),
   ("$110", "x max rate, mm/min"),
   ("$111", "y max rate, mm/min"),
   ("$112", "z max rate, mm/min"),
   ("$120", "x accel, mm/sec^2"),
   ("$121", "y accel, mm/sec^2"),
   ("$122", "z accel, mm/sec^2"),
   ("$130", "x max travel, mm"),
   ("$131", "y max travel, mm"),
   ("$132", "z max travel, mm")]

/-- Catalog lookup; `none` models the `KeyError` path. -/
def settingsDesc (k : String) : Option String :=
  (settingsMap.find? fun p => p.1 == k).map Prod.snd

/-- A parameter key of the settings sigil shape: `$` followed by one or more
decimal digits. -/
def keyShape (k : String) : Bool :=
  match k.data with
  | c :: ds => c = '$' && !ds.isEmpty && ds.all Char.isDigit
  | [] => false

/-- No newline occurs in the string (so it renders as a single line). -/
def noNewline (s : String) : Bool :=
  s.data.all fun c => !(c = '\n')

/-- The anchored match `re.findall(r'^\$\d+=\d+', s)[0]`: `$`, one or more
digits, `=`, one or more digits, all greedy, matching only at the start of
the string. -/
def matchKV (l : List Char) : Option (List Char) :=
  match l with
  | c :: rest =>
    if c = '$' then
      let ds := rest.takeWhile Char.isDigit
      if ds = [] then none
      else
        match rest.dropWhile Char.isDigit with
        | e :: r2 =>
          if e = '=' then
            let vs := r2.takeWhile Char.isDigit
            if vs = [] then none else some ('$' :: ds ++ '=' :: vs)
          else none
        | [] => none
    else none
  | [] => none

/-- One line of `GrblSettings._parse_settings`: lines not starting with `$`
are skipped; a `$`-line whose head does not match the key-value pattern
raises `IndexError` (`[0]` on an empty findall); otherwise the match is
split at `=` into key and value. -/
def parseSettingsLine (s : String) : Res (Option (String × String)) :=
  if headIs ['$'] s.data then
    match matchKV s.data with
    | none => .exn .indexError
    | some m =>
      match pySplitCore '=' m with
      | [k, v] => .ok (some (⟨k⟩, ⟨v⟩))
      | _ => .exn .indexError
  else .ok none

/-- Ordered-dictionary insertion: replace in place when the key exists,
append otherwise. -/
def odInsert (d : List (String × String)) (k v : String) : List (String × String) :=
  if d.any (fun p => p.1 == k) then
    d.map fun p => if p.1 == k then (k, v) else p
  else d ++ [(k, v)]

/-- `GrblSettings._parse_settings` over the lines, threading the ordered
dictionary. -/
def parseSettingsAux (acc : List (String × String)) :
    List String → Res (List (String × String))
  | [] => .ok acc
  | s :: rest =>
    match parseSettingsLine s with
    | .exn e => .exn e
    | .ok none => parseSettingsAux acc rest
    | .ok (some (k, v)) => parseSettingsAux (odInsert acc k v) rest

/-- `GrblSettings._parse_settings`. -/
def parseSettings (lines : List String) : Res (List (String × String)) :=
  parseSettingsAux [] lines

/-- Python `'\n'.join`. -/
def joinNL : List String → String
  | [] => ""
  | [s] => s
  | s :: rest => s ++ "\n" ++ joinNL rest

/-- `GrblSettings._pretty_print_settings`: one `key=value (description)` line
per entry, the description looked up in the static catalog (`KeyError` when
absent), joined with newlines. -/
def renderSettings : List (String × String) → Res (List String)
  | [] => .ok []
  | (k, v) :: rest =>
    match settingsDesc k with
    | none => .exn .keyError
    | some desc =>
      match renderSettings rest with
      | .exn e => .exn e
      | .ok ls => .ok ((k ++ "=" ++ v ++ " (" ++ desc ++ ")") :: ls)

/-- The settings round trip of the spec: render the table, split the
rendered text into lines, and reparse. -/
def settingsRoundTrip (d : List (String × String)) : Res (List (String × String)) :=
  match renderSettings d with
  | .exn e => .exn e
  | .ok ls => parseSettings (pySplit (joinNL ls) '\n')

/-! ### Scripted status traces

For reasoning about the poll loop the read script is organised into
acknowledgment-terminated response blocks, one per status query. -/

/-- A read script made of response blocks, each block being its raw content
lines followed by the acknowledgment line. -/
def blockReads (blocks : List (List String)) : List String :=
  (blocks.map fun b => b ++ [okLine]).flatten

/-- The content lines of a block contain no terminator, so one `_response`
call consumes exactly one block. -/
def goodBlock (b : List String) : Prop := ∀ l ∈ b, l ≠ "" ∧ l ≠ okLine

instance (b : List String) : Decidable (goodBlock b) :=
  inferInstanceAs (Decidable (∀ l ∈ b, _ ∧ _))

/-- A status-response block yields the parsed status `(state, workX, workY)`:
its stripped lines (followed by the accumulated `"ok"` token) parse to a
snapshot with that state and a two-element work position whose components
parse to the given rationals. -/
def BlockStatus (b : List String) (s : String × ℚ × ℚ) : Prop :=
  goodBlock b ∧
  ∃ g xs ys, parseStatus (b.map pyStrip ++ ["ok"]) = .ok g ∧ g.state = s.1 ∧
    g.w_pos = [xs, ys] ∧ pyFloat xs = some s.2.1 ∧ pyFloat ys = some s.2.2

/-- The convergence test of the poll loop on a parsed status
`(state, workX, workY)` for a target `(xq, yq)`: state is `Idle` and both
exact differences are zero. -/
@[reducible] def pollDone (xq yq : ℚ) (s : String × ℚ × ℚ) : Prop :=
  s.1 = "Idle" ∧ xq - s.2.1 = 0 ∧ yq - s.2.2 = 0

instance (xq yq : ℚ) (s : String × ℚ × ℚ) : Decidable (pollDone xq yq s) :=
  inferInstanceAs (Decidable (_ ∧ _ ∧ _))

/-! ## Theorems -/

/-- Stripping the acknowledgment line yields the bare token. -/
theorem pyStrip_okLine : pyStrip okLine = "ok" := by decide

/-- The response loop on a script whose first terminator (an empty read or
the acknowledgment line) follows `pre`: every line of `pre` is stripped and
accumulated, the terminator is stripped and appended, and the rest of the
script is left unconsumed. -/
theorem respLoop_scan (pre : List String) (t : String) (rest : List String)
    (h : ∀ l ∈ pre, l ≠ "" ∧ l ≠ okLine) (ht : t = "" ∨ t = okLine) :
    respLoop (pre ++ t :: rest) = (pre.map pyStrip ++ [pyStrip t], rest) := by
  induction pre with
  | nil =>
    simp only [List.nil_append, List.map_nil]
    rw [respLoop, if_pos ht]
  | cons l pre ih =>
    have hl := h l (List.mem_cons_self l pre)
    have hrec := ih fun x hx => h x (List.mem_cons_of_mem l hx)
    simp only [List.cons_append, List.map_cons]
    rw [respLoop, if_neg (not_or.mpr hl), hrec]

/-- C10: every element of the response-line list returned by `_response` is
the whitespace-stripped form of a raw line read from the transport; when a
timeout (empty read) ends accumulation the empty read itself is appended, so
the list ends with `""`; when the acknowledgment ends it the final element is
the stripped token `"ok"`; and a raw line other than `""` or exactly
`"ok\r\n"` never terminates accumulation — it is stripped, appended, and
reading continues. -/
theorem c10_response_lines (pre rest : List String)
    (h : ∀ l ∈ pre, l ≠ "" ∧ l ≠ okLine) :
    respLoop (pre ++ "" :: rest) = (pre.map pyStrip ++ [""], rest) ∧
    respLoop (pre ++ okLine :: rest) = (pre.map pyStrip ++ ["ok"], rest) ∧
    ∀ r, r ≠ "" → r ≠ okLine →
      respLoop (r :: rest) = (pyStrip r :: (respLoop rest).1, (respLoop rest).2) := by
  refine ⟨?_, ?_, ?_⟩
  · rw [respLoop_scan pre "" rest h (Or.inl rfl)]
    rfl
  · rw [respLoop_scan pre okLine rest h (Or.inr rfl), pyStrip_okLine]
  · intro r h1 h2
    rw [respLoop, if_neg (not_or.mpr ⟨h1, h2⟩)]

/-- Witness for C10 at a concrete prefix and tail. -/
theorem c10_response_lines_witness :
    respLoop (["a b \r\n"] ++ "" :: ([] : List String)) =
      (["a b \r\n"].map pyStrip ++ [""], []) ∧
    respLoop (["a b \r\n"] ++ okLine :: ([] : List String)) =
      (["a b \r\n"].map pyStrip ++ ["ok"], []) ∧
    ∀ r, r ≠ "" → r ≠ okLine →
      respLoop (r :: ([] : List String)) =
        (pyStrip r :: (respLoop []).1, (respLoop []).2) :=
  c10_response_lines ["a b \r\n"] [] (by decide)

/-- C4 counterexample: the cycle-start real-time command is not written as a
single unframed byte — `_command` appends a newline to every command, so the
wire sees `"~\n"`, not `"~"`. -/
theorem c4_counterexample :
    (cycleStart ⟨true, [okLine], []⟩).2.writes = ["~\n"] ∧ "~\n" ≠ "~" := by
  decide

/-- C4 amended: every real-time command (`~`, `!`, `?`, and the reset byte)
goes through the same `_command` framing as system and motion commands and is
therefore written newline-terminated: the command character followed by
`'\n'`. -/
theorem c4_realtime_newline_framed (t : Transport) (ho : t.isOpen = true) :
    (cycleStart t).2.writes = t.writes ++ ["~\n"] ∧
    (feedHold t).2.writes = t.writes ++ ["!\n"] ∧
    (statusQuery t).2.writes = t.writes ++ ["?\n"] ∧
    (resetGrbl t).2.writes = t.writes ++ ["\x18\n"] := by
  simp [cycleStart, feedHold, statusQuery, resetGrbl, grblCommand, ho]

/-- Witness for C4 amended on a concrete open transport. -/
theorem c4_realtime_newline_framed_witness :
    (cycleStart ⟨true, [], []⟩).2.writes = [] ++ ["~\n"] ∧
    (feedHold ⟨true, [], []⟩).2.writes = [] ++ ["!\n"] ∧
    (statusQuery ⟨true, [], []⟩).2.writes = [] ++ ["?\n"] ∧
    (resetGrbl ⟨true, [], []⟩).2.writes = [] ++ ["\x18\n"] :=
  c4_realtime_newline_framed ⟨true, [], []⟩ rfl

/-- C7: sending any command while the transport is not open fails before any
write — but with an `AttributeError` (the error path formats its message
with `self.port`, an attribute `GrblCtrl` never defines), not the
`GrblSerialException` the class documentation promises.  The transport,
including its write list, is left untouched. -/
theorem c7_closed_port (cmd : String) (t : Transport) (hc : t.isOpen = false) :
    grblCommand cmd t = (.exn (.attributeError "port"), t) := by
  simp [grblCommand, hc]

/-- Witness for C7 at a concrete closed transport. -/
theorem c7_closed_port_witness :
    grblCommand "$$" ⟨false, [], []⟩ = (.exn (.attributeError "port"), ⟨false, [], []⟩) :=
  c7_closed_port "$$" ⟨false, [], []⟩ rfl

/-- C9: parsing a response containing the line
`<Idle|MPos:1.000,2.000,0.000|WPos:0.500,1.500,0.000>` yields state `Idle`,
machine position `("1.000","2.000")` and work position `("0.500","1.500")`
with the Z components discarded; parsing any response with no line bracketed
by `<` and `>` yields the defaults: state `Unknown` with unresolved
(`"Unknown"`) position fields. -/
theorem c9_status_parse (lines : List String)
    (hnb : ∀ r ∈ lines, bracketed r = false) :
    parseStatus ["<Idle|MPos:1.000,2.000,0.000|WPos:0.500,1.500,0.000>"] =
      .ok ⟨"Idle", ["1.000", "2.000"], ["0.500", "1.500"]⟩ ∧
    parseStatus lines = .ok ⟨"Unknown", ["Unknown", "Unknown"], ["Unknown", "Unknown"]⟩ := by
  refine ⟨by decide, ?_⟩
  induction lines with
  | nil => rfl
  | cons r rest ih =>
    rw [parseStatus, if_neg]
    · exact ih fun l hl => hnb l (List.mem_cons_of_mem r hl)
    · simp [hnb r (List.mem_cons_self r rest)]

/-- Witness for C9 at a concrete bracket-free response. -/
theorem c9_status_parse_witness :
    parseStatus ["<Idle|MPos:1.000,2.000,0.000|WPos:0.500,1.500,0.000>"] =
      .ok ⟨"Idle", ["1.000", "2.000"], ["0.500", "1.500"]⟩ ∧
    parseStatus ["ok", "other"] =
      .ok ⟨"Unknown", ["Unknown", "Unknown"], ["Unknown", "Unknown"]⟩ :=
  c9_status_parse ["ok", "other"] (by decide)

/-- A position extraction with no regex match raises `IndexError`. -/
theorem extractPos_none (marker : List Char) (r : String)
    (h : findFirst (matchTriple marker) r.data = none) :
    extractPos marker r = .exn .indexError := by
  unfold extractPos; rw [h]

/-- Unfolding a position extraction once the regex match is known. -/
theorem extractPos_some (marker : List Char) (r : String) (m : List Char)
    (h : findFirst (matchTriple marker) r.data = some m) :
    extractPos marker r =
      match (pySplitCore ':' m).get? 1 with
      | none => .exn .indexError
      | some coords => .ok (((pySplitCore ',' coords).take 2).map fun l => (⟨l⟩ : String)) := by
  unfold extractPos; rw [h]

/-- A position extraction either succeeds or raises `IndexError`. -/
theorem extractPos_cases (marker : List Char) (r : String) :
    (∃ v, extractPos marker r = .ok v) ∨ extractPos marker r = .exn .indexError := by
  cases hf : findFirst (matchTriple marker) r.data with
  | none => exact Or.inr (extractPos_none marker r hf)
  | some m =>
    rw [extractPos_some marker r m hf]
    cases (pySplitCore ':' m).get? 1 with
    | none => exact Or.inr rfl
    | some coords => exact Or.inl ⟨_, rfl⟩

/-- C6 counterexample: a response whose bracketed line `<foo>` has no
parseable state token makes status parsing raise `IndexError`
(`re.findall(...)[0]` on an empty match list) instead of returning the
permissive `Unknown` snapshot the claim asserts. -/
theorem c6_counterexample :
    parseStatus ["<foo>"] = .exn .indexError ∧
    parseStatus ["<foo>"] ≠
      .ok ⟨"Unknown", ["Unknown", "Unknown"], ["Unknown", "Unknown"]⟩ := by
  decide

/-- C6 amended: for every response whose first bracketed line has no
parseable state token, or no parseable `MPos:`/`WPos:` position triple,
status parsing fails with `IndexError`; the `Unknown`/unresolved snapshot is
produced only when no bracketed line is present at all. -/
theorem c6_malformed_bracket_raises (pre post : List String) (r : String)
    (hpre : ∀ l ∈ pre, bracketed l = false) (hbr : bracketed r = true)
    (hmal : findFirst matchState r.data = none ∨
            findFirst (matchTriple mposMarker) r.data = none ∨
            findFirst (matchTriple wposMarker) r.data = none) :
    parseStatus (pre ++ r :: post) = .exn .indexError := by
  induction pre with
  | nil =>
    rw [List.nil_append, parseStatus, if_pos hbr]
    unfold parseBracketLine
    rcases hmal with h1 | h1 | h1
    · rw [h1]
    · simp only [extractPos_none mposMarker r h1]
      cases findFirst matchState r.data <;> rfl
    · simp only [extractPos_none wposMarker r h1]
      cases findFirst matchState r.data
      · rfl
      · rcases extractPos_cases mposMarker r with ⟨v, hv⟩ | hv <;> simp only [hv]
  | cons l pre ih =>
    rw [List.cons_append, parseStatus, if_neg]
    · exact ih fun x hx => hpre x (List.mem_cons_of_mem l hx)
    · simp [hpre l (List.mem_cons_self l pre)]

/-- Witness for C6 amended at the concrete malformed line `<garbage>`. -/
theorem c6_malformed_bracket_raises_witness :
    parseStatus (["ok"] ++ "<garbage>" :: ["after"]) = .exn .indexError :=
  c6_malformed_bracket_raises ["ok"] ["after"] "<garbage>" (by decide) (by decide)
    (Or.inl (by decide))

/-- Evaluating `XYGrblMotion.current_status` on an open transport: exactly
one `?` query is written and the accumulated response lines are parsed. -/
theorem xyCurrentStatus_eval (t : Transport) (ho : t.isOpen = true) (s : GStatus)
    (hp : parseStatus (respLoop t.reads).1 = .ok s) :
    xyCurrentStatus t = (.ok s, ⟨true, (respLoop t.reads).2, t.writes ++ ["?\n"]⟩) := by
  unfold xyCurrentStatus statusQuery grblCommand
  rw [if_pos ho]
  simp only [hp]
  rfl

/-- C1 counterexample: with the controller reporting `Idle`, requesting the
recognized-but-unsupported mode `G1` does fail with the
`not implemented yet` motion-mode error, but only after the precheck status
query `?` has been written to the wire — the claim's "without issuing any
status query" is false. -/
theorem c1_counterexample :
    asyncGotoXY "1.000" "2.000" "G1"
        ⟨true, ["<Idle|MPos:0.000,0.000,0.000|WPos:0.000,0.000,0.000>\r\n", okLine], []⟩ =
      (.exn (.motionMode "G1 not implemented yet."), ⟨true, [], ["?\n"]⟩) ∧
    "?\n" ∈ (asyncGotoXY "1.000" "2.000" "G1"
        ⟨true, ["<Idle|MPos:0.000,0.000,0.000|WPos:0.000,0.000,0.000>\r\n", okLine], []⟩).2.writes := by
  decide

/-- C1 amended: when the precheck status query reports `Idle`, a move
request with a recognized-but-unsupported mode (`G1`, `G2`, `G3`, `G38.2`,
`G38.3`, `G38.4`, `G38.5`, `G80`) fails with the `not implemented yet`
motion-mode error, and an unrecognized mode token fails with the
`not a valid motion mode` error; in both cases exactly one status query
(`"?\n"`, the precheck) has been written and no motion command is issued. -/
theorem c1_mode_errors (x y mode : String) (t : Transport) (ho : t.isOpen = true)
    (s : GStatus) (hp : parseStatus (respLoop t.reads).1 = .ok s)
    (hidle : s.state = "Idle") :
    (mode ∈ unsupportedModes →
      asyncGotoXY x y mode t =
        (.exn (.motionMode (mode ++ " not implemented yet.")),
         ⟨true, (respLoop t.reads).2, t.writes ++ ["?\n"]⟩)) ∧
    (mode ∉ unsupportedModes → mode ≠ "G0" →
      asyncGotoXY x y mode t =
        (.exn (.motionMode (mode ++ " not a valid motion mode.")),
         ⟨true, (respLoop t.reads).2, t.writes ++ ["?\n"]⟩)) := by
  have hxy := xyCurrentStatus_eval t ho s hp
  constructor
  · intro hm
    have hg0 : ¬ mode = "G0" := fun h => by subst h; exact absurd hm (by decide)
    simp [asyncGotoXY, hxy, hidle, hg0, hm]
  · intro hm hg0
    simp [asyncGotoXY, hxy, hidle, hg0, hm]

/-- Witness for C1 amended: concrete idle status script and mode `G1`. -/
theorem c1_mode_errors_witness :
    ("G1" ∈ unsupportedModes →
      asyncGotoXY "1.000" "2.000" "G1"
          ⟨true, ["<Idle|MPos:0.000,0.000,0.000|WPos:0.000,0.000,0.000>\r\n", okLine], []⟩ =
        (.exn (.motionMode ("G1" ++ " not implemented yet.")),
         ⟨true, (respLoop ["<Idle|MPos:0.000,0.000,0.000|WPos:0.000,0.000,0.000>\r\n", okLine]).2,
          [] ++ ["?\n"]⟩)) ∧
    ("G1" ∉ unsupportedModes → "G1" ≠ "G0" →
      asyncGotoXY "1.000" "2.000" "G1"
          ⟨true, ["<Idle|MPos:0.000,0.000,0.000|WPos:0.000,0.000,0.000>\r\n", okLine], []⟩ =
        (.exn (.motionMode ("G1" ++ " not a valid motion mode.")),
         ⟨true, (respLoop ["<Idle|MPos:0.000,0.000,0.000|WPos:0.000,0.000,0.000>\r\n", okLine]).2,
          [] ++ ["?\n"]⟩)) :=
  c1_mode_errors "1.000" "2.000" "G1"
    ⟨true, ["<Idle|MPos:0.000,0.000,0.000|WPos:0.000,0.000,0.000>\r\n", okLine], []⟩ rfl
    ⟨"Idle", ["0.000", "0.000"], ["0.000", "0.000"]⟩ (by decide) rfl

/-- C3: requesting a move while the reported state is not `Idle` fails
before any motion command is written — but the failure is an
`AttributeError` (the error path formats its message with `self.state`, an
attribute `XYGrblMotion` never defines), not the `GrblMotionModeExeption`
the class documentation promises.  Only the precheck `?` query reaches the
wire. -/
theorem c3_busy_attribute_error (x y mode : String) (t : Transport)
    (ho : t.isOpen = true) (s : GStatus)
    (hp : parseStatus (respLoop t.reads).1 = .ok s) (hbusy : s.state ≠ "Idle") :
    asyncGotoXY x y mode t =
      (.exn (.attributeError "state"), ⟨true, (respLoop t.reads).2, t.writes ++ ["?\n"]⟩) := by
  have hxy := xyCurrentStatus_eval t ho s hp
  simp [asyncGotoXY, hxy, hbusy]

/-- Witness for C3: concrete `Run` status script. -/
theorem c3_busy_attribute_error_witness :
    asyncGotoXY "1.000" "2.000" "G0"
        ⟨true, ["<Run|MPos:0.000,0.000,0.000|WPos:0.000,0.000,0.000>\r\n", okLine], []⟩ =
      (.exn (.attributeError "state"),
       ⟨true, (respLoop ["<Run|MPos:0.000,0.000,0.000|WPos:0.000,0.000,0.000>\r\n", okLine]).2,
        [] ++ ["?\n"]⟩) :=
  c3_busy_attribute_error "1.000" "2.000" "G0"
    ⟨true, ["<Run|MPos:0.000,0.000,0.000|WPos:0.000,0.000,0.000>\r\n", okLine], []⟩ rfl
    ⟨"Run", ["0.000", "0.000"], ["0.000", "0.000"]⟩ (by decide) (by decide)

/-- Evaluating the chained soft-limit comparison when all three strings
parse as floats. -/
theorem softLimitCheck_eval (lo hi v : String) (qlo qhi qv : ℚ)
    (hlo : pyFloat lo = some qlo) (hhi : pyFloat hi = some qhi)
    (hv : pyFloat v = some qv) :
    softLimitCheck (lo, hi) v = .ok (decide (qlo ≤ qv) && decide (qv ≤ qhi)) := by
  simp only [softLimitCheck, hlo, hhi, hv]
  by_cases hle : qlo ≤ qv
  · simp [hle]
  · simp [hle]

/-- C8: for every target with `x` outside the inclusive `[xMin, xMax]` range
the guarded move fails with `SoftLimitExceeded` carrying the offending value
and bounds, and the transport is untouched (no command of any kind is
written); the same holds for `y` outside `[yMin, yMax]` when `x` is in
range; and for targets inside both inclusive ranges — boundary values
included — the guard passes straight through to the inherited synchronous
move. -/
theorem c8_soft_limit_guard (xlo xhi ylo yhi x y : String)
    (qxlo qxhi qylo qyhi qx qy : ℚ)
    (h1 : pyFloat xlo = some qxlo) (h2 : pyFloat xhi = some qxhi)
    (h3 : pyFloat ylo = some qylo) (h4 : pyFloat yhi = some qyhi)
    (h5 : pyFloat x = some qx) (h6 : pyFloat y = some qy)
    (fuel : Nat) (t : Transport) :
    ((qx < qxlo ∨ qxhi < qx) →
      headGotoXY (xlo, xhi) (ylo, yhi) x y fuel t =
        (.fail (.softLimit (x ++ " out of range [" ++ xlo ++ " " ++ xhi ++ "]")), t, [])) ∧
    (qxlo ≤ qx → qx ≤ qxhi → (qy < qylo ∨ qyhi < qy) →
      headGotoXY (xlo, xhi) (ylo, yhi) x y fuel t =
        (.fail (.softLimit (y ++ " out of range [" ++ ylo ++ " " ++ yhi ++ "]")), t, [])) ∧
    (qxlo ≤ qx → qx ≤ qxhi → qylo ≤ qy → qy ≤ qyhi →
      headGotoXY (xlo, xhi) (ylo, yhi) x y fuel t = gotoXY x y "G0" fuel t) := by
  have hsx := softLimitCheck_eval xlo xhi x qxlo qxhi qx h1 h2 h5
  have hsy := softLimitCheck_eval ylo yhi y qylo qyhi qy h3 h4 h6
  refine ⟨?_, ?_, ?_⟩
  · rintro (hlt | hgt)
    · have hb : (decide (qxlo ≤ qx) && decide (qx ≤ qxhi)) = false := by
        simp [not_le.mpr hlt]
      simp [headGotoXY, hsx, hb]
    · have hb : (decide (qxlo ≤ qx) && decide (qx ≤ qxhi)) = false := by
        simp [not_le.mpr hgt]
      simp [headGotoXY, hsx, hb]
  · intro hx1 hx2 hy
    have hbx : (decide (qxlo ≤ qx) && decide (qx ≤ qxhi)) = true := by simp [hx1, hx2]
    have hby : (decide (qylo ≤ qy) && decide (qy ≤ qyhi)) = false := by
      rcases hy with hlt | hgt
      · simp [not_le.mpr hlt]
      · simp [not_le.mpr hgt]
    simp [headGotoXY, hsx, hsy, hbx, hby]
  · intro hx1 hx2 hy1 hy2
    have hbx : (decide (qxlo ≤ qx) && decide (qx ≤ qxhi)) = true := by simp [hx1, hx2]
    have hby : (decide (qylo ≤ qy) && decide (qy ≤ qyhi)) = true := by simp [hy1, hy2]
    simp [headGotoXY, hsx, hsy, hbx, hby]

/-- Evaluation of `float()` on the concrete string `0.000`. -/
theorem pyFloat_zero : pyFloat "0.000" = some 0 := by
  rw [show pyFloat "0.000" =
        some ((1 : ℚ) * ((((0 : ℕ)) : ℚ) + (((0 : ℕ)) : ℚ) / (10 ^ (3 : ℕ) : ℚ))) from rfl]
  norm_num

/-- Evaluation of `float()` on the concrete string `10.000`. -/
theorem pyFloat_ten : pyFloat "10.000" = some 10 := by
  rw [show pyFloat "10.000" =
        some ((1 : ℚ) * ((((10 : ℕ)) : ℚ) + (((0 : ℕ)) : ℚ) / (10 ^ (3 : ℕ) : ℚ))) from rfl]
  norm_num

/-- Evaluation of `float()` on the concrete string `20.000`. -/
theorem pyFloat_twenty : pyFloat "20.000" = some 20 := by
  rw [show pyFloat "20.000" =
        some ((1 : ℚ) * ((((20 : ℕ)) : ℚ) + (((0 : ℕ)) : ℚ) / (10 ^ (3 : ℕ) : ℚ))) from rfl]
  norm_num

/-- Witness for C8: limits `[0.000, 10.000] × [0.000, 20.000]` with the
boundary target `(10.000, 0.000)`. -/
theorem c8_soft_limit_guard_witness :
    (((10 : ℚ) < 0 ∨ (10 : ℚ) < 10) →
      headGotoXY ("0.000", "10.000") ("0.000", "20.000") "10.000" "0.000" 0 ⟨true, [], []⟩ =
        (.fail (.softLimit ("10.000" ++ " out of range [" ++ "0.000" ++ " " ++ "10.000" ++ "]")),
         ⟨true, [], []⟩, [])) ∧
    ((0 : ℚ) ≤ 10 → (10 : ℚ) ≤ 10 → ((0 : ℚ) < 0 ∨ (20 : ℚ) < 0) →
      headGotoXY ("0.000", "10.000") ("0.000", "20.000") "10.000" "0.000" 0 ⟨true, [], []⟩ =
        (.fail (.softLimit ("0.000" ++ " out of range [" ++ "0.000" ++ " " ++ "20.000" ++ "]")),
         ⟨true, [], []⟩, [])) ∧
    ((0 : ℚ) ≤ 10 → (10 : ℚ) ≤ 10 → (0 : ℚ) ≤ 0 → (0 : ℚ) ≤ 20 →
      headGotoXY ("0.000", "10.000") ("0.000", "20.000") "10.000" "0.000" 0 ⟨true, [], []⟩ =
        gotoXY "10.000" "0.000" "G0" 0 ⟨true, [], []⟩) :=
  c8_soft_limit_guard "0.000" "10.000" "0.000" "20.000" "10.000" "0.000"
    0 10 0 20 10 0 pyFloat_zero pyFloat_ten pyFloat_zero pyFloat_twenty
    pyFloat_ten pyFloat_zero 0 ⟨true, [], []⟩

/-- Reads of a block list decompose one block at a time. -/
theorem blockReads_cons (b : List String) (blocks : List (List String)) :
    blockReads (b :: blocks) = b ++ okLine :: blockReads blocks := by
  simp [blockReads]

/-- One iteration of the completion poll loop on a scripted transport:
consume one status block, test convergence, and either stop or record a
0.5 sleep and continue on the rest of the script. -/
theorem pollLoop_step (x y : String) (xq yq : ℚ)
    (hx : pyFloat x = some xq) (hy : pyFloat y = some yq)
    (b : List String) (blocks : List (List String)) (w : List String)
    (st : String) (wx wy : ℚ) (hb : BlockStatus b (st, wx, wy)) (fuel : Nat) :
    pollLoop x y (fuel + 1) ⟨true, blockReads (b :: blocks), w⟩ =
      if st = "Idle" ∧ xq - wx = 0 ∧ yq - wy = 0 then
        (.done, ⟨true, blockReads blocks, w ++ ["?\n"]⟩, [])
      else
        ((pollLoop x y fuel ⟨true, blockReads blocks, w ++ ["?\n"]⟩).1,
         (pollLoop x y fuel ⟨true, blockReads blocks, w ++ ["?\n"]⟩).2.1,
         (1 / 2 : ℚ) :: (pollLoop x y fuel ⟨true, blockReads blocks, w ++ ["?\n"]⟩).2.2) := by
  obtain ⟨hgood, g, xs, ys, hp, hst, hwp, hfx, hfy⟩ := hb
  have hresp := respLoop_scan b okLine (blockReads blocks) hgood (Or.inr rfl)
  have hr1 : (respLoop (blockReads (b :: blocks))).1 = b.map pyStrip ++ ["ok"] := by
    rw [blockReads_cons, hresp, pyStrip_okLine]
  have hr2 : (respLoop (blockReads (b :: blocks))).2 = blockReads blocks := by
    rw [blockReads_cons, hresp]
  have hxy := xyCurrentStatus_eval ⟨true, blockReads (b :: blocks), w⟩ rfl g
    (by rw [hr1]; exact hp)
  rw [hr2] at hxy
  rw [pollLoop, hxy]
  simp only [hwp, hx, hy, hfx, hfy, hst]

/-- The poll loop stops, reporting success, at the first scripted status
that satisfies the convergence test, having written one status query per
iteration and slept once between consecutive polls. -/
theorem pollLoop_done_at (x y : String) (xq yq : ℚ)
    (hx : pyFloat x = some xq) (hy : pyFloat y = some yq) :
    ∀ (k : Nat) (blocks : List (List String)) (sts : List (String × ℚ × ℚ)),
      List.Forall₂ BlockStatus blocks sts → ∀ (w : List String) (fuel : Nat)
      (hk : k < sts.length), k < fuel →
      (∀ j (hj : j < k), ¬ pollDone xq yq (sts.get ⟨j, hj.trans hk⟩)) →
      pollDone xq yq (sts.get ⟨k, hk⟩) →
      pollLoop x y fuel ⟨true, blockReads blocks, w⟩ =
        (.done, ⟨true, blockReads (blocks.drop (k + 1)), w ++ List.replicate (k + 1) "?\n"⟩,
         List.replicate k (1 / 2 : ℚ)) := by
  intro k
  induction k with
  | zero =>
    intro blocks sts hB w fuel hk hfuel hbefore hcond
    cases hB with
    | nil => simp at hk
    | @cons b s bs ss hbs htail =>
      obtain ⟨f, rfl⟩ : ∃ f, fuel = f + 1 := ⟨fuel - 1, by omega⟩
      obtain ⟨st, wx, wy⟩ := s
      have hc : st = "Idle" ∧ xq - wx = 0 ∧ yq - wy = 0 := hcond
      rw [pollLoop_step x y xq yq hx hy b bs w st wx wy hbs f, if_pos hc]
      simp
  | succ k ih =>
    intro blocks sts hB w fuel hk hfuel hbefore hcond
    cases hB with
    | nil => simp at hk
    | @cons b s bs ss hbs htail =>
      obtain ⟨f, rfl⟩ : ∃ f, fuel = f + 1 := ⟨fuel - 1, by omega⟩
      obtain ⟨st, wx, wy⟩ := s
      have hn : ¬(st = "Idle" ∧ xq - wx = 0 ∧ yq - wy = 0) := hbefore 0 (Nat.succ_pos k)
      rw [pollLoop_step x y xq yq hx hy b bs w st wx wy hbs f, if_neg hn]
      have hk' : k < ss.length := Nat.lt_of_succ_lt_succ hk
      rw [ih bs ss htail (w ++ ["?\n"]) f hk' (by omega)
        (fun j hj => hbefore (j + 1) (Nat.succ_lt_succ hj)) hcond]
      simp [List.replicate_succ, List.append_assoc]

/-- For any iteration bound, if no scripted status within it satisfies the
convergence test, the poll loop is still running after that many
iterations, having slept once per iteration — there is no internal cap. -/
theorem pollLoop_running_all (x y : String) (xq yq : ℚ)
    (hx : pyFloat x = some xq) (hy : pyFloat y = some yq) :
    ∀ (fuel : Nat) (blocks : List (List String)) (sts : List (String × ℚ × ℚ)),
      List.Forall₂ BlockStatus blocks sts → ∀ (w : List String)
      (hf : fuel ≤ sts.length),
      (∀ j (hj : j < fuel), ¬ pollDone xq yq (sts.get ⟨j, hj.trans_le hf⟩)) →
      pollLoop x y fuel ⟨true, blockReads blocks, w⟩ =
        (.running, ⟨true, blockReads (blocks.drop fuel), w ++ List.replicate fuel "?\n"⟩,
         List.replicate fuel (1 / 2 : ℚ)) := by
  intro fuel
  induction fuel with
  | zero =>
    intro blocks sts hB w hf hnone
    rw [pollLoop]
    simp
  | succ f ih =>
    intro blocks sts hB w hf hnone
    cases hB with
    | nil => simp at hf
    | @cons b s bs ss hbs htail =>
      obtain ⟨st, wx, wy⟩ := s
      have hn : ¬(st = "Idle" ∧ xq - wx = 0 ∧ yq - wy = 0) := hnone 0 (Nat.succ_pos f)
      rw [pollLoop_step x y xq yq hx hy b bs w st wx wy hbs f, if_neg hn]
      have hf' : f ≤ ss.length := Nat.le_of_succ_le_succ hf
      rw [ih bs ss htail (w ++ ["?\n"]) hf'
        (fun j hj => hnone (j + 1) (Nat.succ_lt_succ hj))]
      simp [List.replicate_succ, List.append_assoc]

/-- C2: over any scripted sequence of well-formed status responses, each
iteration of the synchronous move's completion poll loop writes one status
query, and the loop terminates successfully at iteration `k + 1` exactly
when the `k`-th reported status is the first with state `Idle` and both
exact differences `target.x - reported.workX` and `target.y - reported.workY`
equal zero, having slept the fixed `0.5` interval `k` times; and for every
bound `fuel` within the script with no such status among the first `fuel`,
the loop is still running after `fuel` iterations and `fuel` sleeps — it has
no iteration cap or elapsed-time bound of its own. -/
theorem c2_poll_loop (x y : String) (xq yq : ℚ)
    (hx : pyFloat x = some xq) (hy : pyFloat y = some yq)
    (blocks : List (List String)) (sts : List (String × ℚ × ℚ))
    (hB : List.Forall₂ BlockStatus blocks sts) (w : List String) :
    (∀ k (hk : k < sts.length) (fuel : Nat), k < fuel →
      (∀ j (hj : j < k), ¬ pollDone xq yq (sts.get ⟨j, hj.trans hk⟩)) →
      pollDone xq yq (sts.get ⟨k, hk⟩) →
      pollLoop x y fuel ⟨true, blockReads blocks, w⟩ =
        (.done, ⟨true, blockReads (blocks.drop (k + 1)), w ++ List.replicate (k + 1) "?\n"⟩,
         List.replicate k (1 / 2 : ℚ))) ∧
    (∀ fuel (hf : fuel ≤ sts.length),
      (∀ j (hj : j < fuel), ¬ pollDone xq yq (sts.get ⟨j, hj.trans_le hf⟩)) →
      pollLoop x y fuel ⟨true, blockReads blocks, w⟩ =
        (.running, ⟨true, blockReads (blocks.drop fuel), w ++ List.replicate fuel "?\n"⟩,
         List.replicate fuel (1 / 2 : ℚ))) :=
  ⟨fun k hk fuel hfuel hbefore hcond =>
      pollLoop_done_at x y xq yq hx hy k blocks sts hB w fuel hk hfuel hbefore hcond,
   fun fuel hf hnone =>
      pollLoop_running_all x y xq yq hx hy fuel blocks sts hB w hf hnone⟩

/-- Evaluation of `float()` on the concrete string `1.000`. -/
theorem pyFloat_one : pyFloat "1.000" = some 1 := by
  rw [show pyFloat "1.000" =
        some ((1 : ℚ) * ((((1 : ℕ)) : ℚ) + (((0 : ℕ)) : ℚ) / (10 ^ (3 : ℕ) : ℚ))) from rfl]
  norm_num

/-- Evaluation of `float()` on the concrete string `2.000`. -/
theorem pyFloat_two : pyFloat "2.000" = some 2 := by
  rw [show pyFloat "2.000" =
        some ((1 : ℚ) * ((((2 : ℕ)) : ℚ) + (((0 : ℕ)) : ℚ) / (10 ^ (3 : ℕ) : ℚ))) from rfl]
  norm_num

/-- Evaluation of `float()` on the concrete string `0.500`. -/
theorem pyFloat_half : pyFloat "0.500" = some (1 / 2) := by
  rw [show pyFloat "0.500" =
        some ((1 : ℚ) * ((((0 : ℕ)) : ℚ) + (((500 : ℕ)) : ℚ) / (10 ^ (3 : ℕ) : ℚ))) from rfl]
  norm_num

/-- Witness for C2: a two-block script with a non-converged `Run` status
followed by the converged `Idle` status at the target `(1.000, 2.000)`: the
loop terminates at the second iteration with two status queries written and
one 0.5 sleep. -/
theorem c2_poll_loop_witness :
    pollLoop "1.000" "2.000" 2
        ⟨true,
         blockReads
           [["<Run|MPos:0.000,0.000,0.000|WPos:0.500,1.000,0.000>\r\n"],
            ["<Idle|MPos:1.000,2.000,0.000|WPos:1.000,2.000,0.000>\r\n"]], []⟩ =
      (.done, ⟨true, [], ["?\n", "?\n"]⟩, [(1 / 2 : ℚ)]) := by
  have hB : List.Forall₂ BlockStatus
      [["<Run|MPos:0.000,0.000,0.000|WPos:0.500,1.000,0.000>\r\n"],
       ["<Idle|MPos:1.000,2.000,0.000|WPos:1.000,2.000,0.000>\r\n"]]
      [("Run", (1 / 2 : ℚ), (1 : ℚ)), ("Idle", 1, 2)] := by
    refine .cons ⟨by decide, ⟨"Run", ["0.000", "0.000"], ["0.500", "1.000"]⟩, "0.500", "1.000",
        by decide, rfl, rfl, pyFloat_half, pyFloat_one⟩
      (.cons ⟨by decide, ⟨"Idle", ["1.000", "2.000"], ["1.000", "2.000"]⟩, "1.000", "2.000",
        by decide, rfl, rfl, pyFloat_one, pyFloat_two⟩ .nil)
  have hk : (1 : ℕ) < [("Run", (1 / 2 : ℚ), (1 : ℚ)), ("Idle", 1, 2)].length := by decide
  exact (c2_poll_loop "1.000" "2.000" 1 2 pyFloat_one pyFloat_two
    [["<Run|MPos:0.000,0.000,0.000|WPos:0.500,1.000,0.000>\r\n"],
     ["<Idle|MPos:1.000,2.000,0.000|WPos:1.000,2.000,0.000>\r\n"]]
    [("Run", (1 / 2 : ℚ), (1 : ℚ)), ("Idle", 1, 2)] hB []).1 1
    hk 2 (by omega)
    (fun j hj => by
      interval_cases j
      exact fun hc => absurd (show "Run" = "Idle" from hc.1) (by decide))
    ⟨rfl, by norm_num, by norm_num⟩

/-- Appending strings concatenates their character data. -/
theorem str_data_append (s t : String) : (s ++ t).data = s.data ++ t.data := by
  cases s; cases t; rfl

/-- A string is its own character data repacked. -/
theorem str_eta (s : String) : (⟨s.data⟩ : String) = s := by
  cases s; rfl

/-- A decimal digit is not one of the structural characters of a rendered
settings line. -/
theorem isDigit_ne (c : Char) (h : c.isDigit = true) :
    c ≠ '=' ∧ c ≠ '\n' ∧ c ≠ ' ' := by
  refine ⟨?_, ?_, ?_⟩ <;> rintro rfl <;> exact absurd h (by decide)

/-- `takeWhile` and `dropWhile` on an all-satisfying chunk followed by a
non-satisfying head. -/
theorem takeWhile_dropWhile_app (p : Char → Bool) (l1 l2 : List Char)
    (h1 : ∀ c ∈ l1, p c = true)
    (h2 : ∀ c, l2.head? = some c → p c = false) :
    (l1 ++ l2).takeWhile p = l1 ∧ (l1 ++ l2).dropWhile p = l2 := by
  induction l1 with
  | nil =>
    cases l2 with
    | nil => simp
    | cons c cs =>
      have hc := h2 c rfl
      simp [List.takeWhile_cons, List.dropWhile_cons, hc]
  | cons a l1 ih =>
    have ha := h1 a (List.mem_cons_self a l1)
    obtain ⟨ht, hd⟩ := ih fun c hc => h1 c (List.mem_cons_of_mem a hc)
    simp [List.takeWhile_cons, List.dropWhile_cons, ha, ht, hd]

/-- Splitting a separator-free chunk yields the chunk alone. -/
theorem pySplitCore_nosep (sep : Char) (l : List Char) (h : ∀ c ∈ l, c ≠ sep) :
    pySplitCore sep l = [l] := by
  induction l with
  | nil => rfl
  | cons c cs ih =>
    have hc := h c (List.mem_cons_self c cs)
    rw [pySplitCore, if_neg hc, ih fun x hx => h x (List.mem_cons_of_mem c hx)]

/-- Splitting peels one separator-free chunk at the first separator. -/
theorem pySplitCore_append (sep : Char) (l1 l2 : List Char)
    (h1 : ∀ c ∈ l1, c ≠ sep) :
    pySplitCore sep (l1 ++ sep :: l2) = l1 :: pySplitCore sep l2 := by
  induction l1 with
  | nil => rw [List.nil_append, pySplitCore, if_pos rfl]
  | cons a l1 ih =>
    have ha := h1 a (List.mem_cons_self a l1)
    rw [List.cons_append, pySplitCore, if_neg ha,
      ih fun x hx => h1 x (List.mem_cons_of_mem a hx)]

/-- The key-value regex on a well-shaped `$digits=digits` head followed by a
non-digit. -/
theorem matchKV_eval (ds vs rest : List Char)
    (hds : ∀ c ∈ ds, c.isDigit = true) (hds0 : ds ≠ [])
    (hvs : ∀ c ∈ vs, c.isDigit = true) (hvs0 : vs ≠ [])
    (hrest : ∀ c, rest.head? = some c → c.isDigit = false) :
    matchKV ('$' :: (ds ++ '=' :: (vs ++ rest))) = some ('$' :: ds ++ '=' :: vs) := by
  obtain ⟨ht1, hd1⟩ := takeWhile_dropWhile_app Char.isDigit ds ('=' :: (vs ++ rest)) hds
    (fun c hc => by cases hc; rfl)
  obtain ⟨ht2, hd2⟩ := takeWhile_dropWhile_app Char.isDigit vs rest hvs hrest
  unfold matchKV
  simp only [if_pos rfl, ht1, hd1, if_neg hds0, ht2, if_neg hvs0, if_true]

/-- Unpacking `noNewline`. -/
theorem noNewline_elim (s : String) (h : noNewline s = true) :
    ∀ c ∈ s.data, c ≠ '\n' := by
  intro c hc
  have := List.all_eq_true.mp h c hc
  simpa using this

/-- All-digit character lists contain no newline. -/
theorem digits_all_noNL (l : List Char) (h : ∀ c ∈ l, c.isDigit = true) :
    ∀ c ∈ l, c ≠ '\n' := fun c hc => (isDigit_ne c (h c hc)).2.1

/-- A rendered settings line contains no newline. -/
theorem line_noNewline (k v desc : String) (ds : List Char)
    (hk : k.data = '$' :: ds) (hds : ∀ c ∈ ds, c.isDigit = true)
    (hv : ∀ c ∈ v.data, c.isDigit = true) (hdesc : noNewline desc = true) :
    noNewline (k ++ "=" ++ v ++ " (" ++ desc ++ ")") = true := by
  have hdn := noNewline_elim desc hdesc
  rw [noNewline, List.all_eq_true]
  rw [show (k ++ "=" ++ v ++ " (" ++ desc ++ ")").data
      = k.data ++ ['='] ++ v.data ++ [' ', '('] ++ desc.data ++ [')'] by
    simp [str_data_append]]
  rw [List.forall_mem_append, List.forall_mem_append, List.forall_mem_append,
    List.forall_mem_append, List.forall_mem_append]
  refine ⟨⟨⟨⟨⟨?_, ?_⟩, ?_⟩, ?_⟩, ?_⟩, ?_⟩
  · rw [hk]
    intro c hc
    rcases List.mem_cons.mp hc with rfl | hc'
    · decide
    · simpa using digits_all_noNL ds hds c hc'
  · decide
  · intro c hc
    simpa using digits_all_noNL v.data hv c hc
  · decide
  · intro c hc
    simpa using hdn c hc
  · decide

/-- A line listed in `settingsMap` resolves through `settingsDesc`. -/
theorem settingsDesc_mem (k desc : String) (h : settingsDesc k = some desc) :
    (k, desc) ∈ settingsMap := by
  unfold settingsDesc at h
  cases hf : settingsMap.find? (fun p => p.1 == k) with
  | none => rw [hf] at h; cases h
  | some p =>
    rw [hf] at h
    have hm := List.mem_of_find?_eq_some hf
    have hp := List.find?_some hf
    have hk : p.1 = k := by simpa using hp
    have hd : p.2 = desc := by simpa using h
    rw [← hk, ← hd]
    exact hm

/-- Every catalog entry has a `$digits` key and a single-line description. -/
theorem settingsMap_wf :
    ∀ p ∈ settingsMap, keyShape p.1 = true ∧ noNewline p.2 = true := by decide

/-- Unpacking `keyShape`. -/
theorem keyShape_elim (k : String) (h : keyShape k = true) :
    ∃ ds, k.data = '$' :: ds ∧ ds ≠ [] ∧ ∀ c ∈ ds, c.isDigit = true := by
  unfold keyShape at h
  cases hd : k.data with
  | nil => rw [hd] at h; cases h
  | cons c cs =>
    rw [hd] at h
    simp only [Bool.and_eq_true, decide_eq_true_eq, Bool.not_eq_true',
      List.all_eq_true] at h
    refine ⟨cs, by rw [h.1.1], ?_, h.2⟩
    intro hnil
    rw [hnil] at h
    exact absurd h.1.2 (by decide)

/-- `parseSettingsLine` on a rendered line recovers the key-value pair. -/
theorem parseSettingsLine_eval (k v desc : String) (ds : List Char)
    (hk : k.data = '$' :: ds) (hds : ∀ c ∈ ds, c.isDigit = true) (hds0 : ds ≠ [])
    (hv : ∀ c ∈ v.data, c.isDigit = true) (hv0 : v.data ≠ []) :
    parseSettingsLine (k ++ "=" ++ v ++ " (" ++ desc ++ ")") = .ok (some (k, v)) := by
  have hdata : (k ++ "=" ++ v ++ " (" ++ desc ++ ")").data =
      '$' :: (ds ++ '=' :: (v.data ++ (' ' :: '(' :: (desc.data ++ [')'])))) := by
    simp [str_data_append, hk]
  have hkv := matchKV_eval ds v.data (' ' :: '(' :: (desc.data ++ [')'])) hds hds0 hv hv0
    (fun c hc => by cases hc; rfl)
  have hne1 : ∀ c ∈ '$' :: ds, c ≠ '=' := by
    intro c hc
    rcases List.mem_cons.mp hc with rfl | hc'
    · decide
    · exact (isDigit_ne c (hds c hc')).1
  have hne2 : ∀ c ∈ v.data, c ≠ '=' := fun c hc => (isDigit_ne c (hv c hc)).1
  have hsplit : pySplitCore '=' (('$' :: ds) ++ '=' :: v.data) = ['$' :: ds, v.data] := by
    rw [pySplitCore_append '=' ('$' :: ds) v.data hne1]
    rw [pySplitCore_nosep '=' v.data hne2]
  have hkk : (⟨'$' :: ds⟩ : String) = k := by rw [← hk]
  unfold parseSettingsLine
  rw [hdata]
  have hhead : headIs ['$']
      ('$' :: (ds ++ '=' :: (v.data ++ (' ' :: '(' :: (desc.data ++ [')']))))) = true := rfl
  rw [if_pos hhead, hkv]
  show (match pySplitCore '=' (('$' :: ds) ++ '=' :: v.data) with
        | [a, b] => Res.ok (some ((⟨a⟩ : String), (⟨b⟩ : String)))
        | _ => Res.exn Err.indexError) = Res.ok (some (k, v))
  rw [hsplit]
  show Res.ok (some ((⟨'$' :: ds⟩ : String), (⟨v.data⟩ : String))) = Res.ok (some (k, v))
  rw [hkk, str_eta v]

/-- Rendering a table whose keys all resolve in the catalog produces one
`key=value (description)` line per entry. -/
theorem renderSettings_eval (d : List (String × String))
    (h : ∀ p ∈ d, ∃ desc, settingsDesc p.1 = some desc) :
    renderSettings d =
      .ok (d.map fun p => p.1 ++ "=" ++ p.2 ++ " (" ++ (settingsDesc p.1).getD "" ++ ")") := by
  induction d with
  | nil => rfl
  | cons p d ih =>
    obtain ⟨desc, hdesc⟩ := h p (List.mem_cons_self p d)
    obtain ⟨k, v⟩ := p
    rw [List.map_cons, renderSettings, hdesc,
      ih fun q hq => h q (List.mem_cons_of_mem _ hq)]
    simp [hdesc]

/-- Inserting a fresh key into the ordered dictionary appends it. -/
theorem odInsert_fresh (acc : List (String × String)) (k v : String)
    (h : ∀ q ∈ acc, q.1 ≠ k) : odInsert acc k v = acc ++ [(k, v)] := by
  have hfalse : ¬ (acc.any (fun p => p.1 == k) = true) := by
    simp only [List.any_eq_true, beq_iff_eq, not_exists]
    intro p
    rintro ⟨hp, rfl⟩
    exact h p hp rfl
  unfold odInsert
  rw [if_neg hfalse]

/-- Parsing the rendered lines of a table with pairwise-distinct keys, all
fresh for the accumulator, appends exactly the table's pairs. -/
theorem parseSettingsAux_eval (d : List (String × String)) :
    ∀ acc : List (String × String),
      (∀ p ∈ d, parseSettingsLine
          (p.1 ++ "=" ++ p.2 ++ " (" ++ (settingsDesc p.1).getD "" ++ ")") = .ok (some p)) →
      (∀ p ∈ d, ∀ q ∈ acc, q.1 ≠ p.1) →
      d.Pairwise (fun p q => p.1 ≠ q.1) →
      parseSettingsAux acc
          (d.map fun p => p.1 ++ "=" ++ p.2 ++ " (" ++ (settingsDesc p.1).getD "" ++ ")") =
        .ok (acc ++ d) := by
  induction d with
  | nil =>
    intro acc _ _ _
    simp [parseSettingsAux]
  | cons p d ih =>
    intro acc hline hfresh hnd
    obtain ⟨hhead, htail⟩ := List.pairwise_cons.mp hnd
    obtain ⟨k, v⟩ := p
    rw [List.map_cons, parseSettingsAux, hline (k, v) (List.mem_cons_self _ _)]
    show parseSettingsAux (odInsert acc k v)
        (d.map fun p => p.1 ++ "=" ++ p.2 ++ " (" ++ (settingsDesc p.1).getD "" ++ ")") =
      .ok (acc ++ (k, v) :: d)
    rw [odInsert_fresh acc k v fun q hq => hfresh (k, v) (List.mem_cons_self _ _) q hq]
    rw [ih (acc ++ [(k, v)]) (fun q hq => hline q (List.mem_cons_of_mem _ hq))
      (fun q hq r hr => by
        rcases List.mem_append.mp hr with hr' | hr'
        · exact hfresh q (List.mem_cons_of_mem _ hq) r hr'
        · rcases List.mem_singleton.mp hr' with rfl
          exact hhead q hq)
      htail]
    simp

/-- Splitting the newline-join of single-line strings recovers them. -/
theorem pySplit_joinNL (ls : List String) (h : ∀ l ∈ ls, noNewline l = true)
    (h0 : ls ≠ []) : pySplit (joinNL ls) '\n' = ls := by
  induction ls with
  | nil => cases h0 rfl
  | cons a ls ih =>
    cases ls with
    | nil =>
      show pySplit a '\n' = [a]
      unfold pySplit
      rw [pySplitCore_nosep '\n' a.data (noNewline_elim a (h a (List.mem_cons_self a [])))]
      simp [str_eta]
    | cons b ls' =>
      have hd : (a ++ "\n" ++ joinNL (b :: ls')).data =
          a.data ++ '\n' :: (joinNL (b :: ls')).data := by
        rw [str_data_append, str_data_append]
        simp
      show pySplit (a ++ "\n" ++ joinNL (b :: ls')) '\n' = a :: b :: ls'
      unfold pySplit
      rw [hd, pySplitCore_append '\n' a.data _
        (noNewline_elim a (h a (List.mem_cons_self a (b :: ls'))))]
      rw [List.map_cons, str_eta]
      have := ih (fun l hl => h l (List.mem_cons_of_mem a hl)) (by simp)
      unfold pySplit at this
      rw [this]

/-- C5 counterexample: the table `{"$0": "12.5"}` has its key in the static
catalog, yet the round trip truncates the value — the parse regex
`^\$\d+=\d+` only matches the integer part, so `12.5` comes back as `12` and
the round trip does not recover the original pairs. -/
theorem c5_counterexample :
    settingsRoundTrip [("$0", "12.5")] = .ok [("$0", "12")] ∧
    ([("$0", "12")] : List (String × String)) ≠ [("$0", "12.5")] := by
  decide

/-- C5 amended: for every settings table with pairwise-distinct keys that
all appear in the static description catalog and with values that are
nonempty strings of decimal digits, parsing the line-split output of
rendering the table yields exactly the original key-to-value pairs
(descriptions are catalog-derived and excluded). -/
theorem c5_settings_roundtrip (d : List (String × String))
    (hk : ∀ p ∈ d, ∃ desc, settingsDesc p.1 = some desc)
    (hv : ∀ p ∈ d, p.2.data ≠ [] ∧ ∀ c ∈ p.2.data, c.isDigit = true)
    (hnd : d.Pairwise fun p q => p.1 ≠ q.1) :
    settingsRoundTrip d = .ok d := by
  have hfacts : ∀ p ∈ d,
      parseSettingsLine
          (p.1 ++ "=" ++ p.2 ++ " (" ++ (settingsDesc p.1).getD "" ++ ")") = .ok (some p) ∧
      noNewline (p.1 ++ "=" ++ p.2 ++ " (" ++ (settingsDesc p.1).getD "" ++ ")") = true := by
    intro p hp
    obtain ⟨desc, hdesc⟩ := hk p hp
    have hmem := settingsDesc_mem p.1 desc hdesc
    have hwf := settingsMap_wf (p.1, desc) hmem
    obtain ⟨ds, hd1, hd2, hd3⟩ := keyShape_elim p.1 hwf.1
    obtain ⟨hv1, hv2⟩ := hv p hp
    rw [hdesc]
    constructor
    · have := parseSettingsLine_eval p.1 p.2 desc ds hd1 hd3 hd2 hv2 hv1
      simpa using this
    · simpa using line_noNewline p.1 p.2 desc ds hd1 hd3 hv2 hwf.2
  cases d with
  | nil => rfl
  | cons p0 d' =>
    have hrender := renderSettings_eval (p0 :: d') hk
    unfold settingsRoundTrip
    rw [hrender]
    show parseSettings
        (pySplit (joinNL ((p0 :: d').map fun p =>
          p.1 ++ "=" ++ p.2 ++ " (" ++ (settingsDesc p.1).getD "" ++ ")")) '\n') =
      .ok (p0 :: d')
    have hnl : ∀ l ∈ (p0 :: d').map
        (fun p => p.1 ++ "=" ++ p.2 ++ " (" ++ (settingsDesc p.1).getD "" ++ ")"),
        noNewline l = true := by
      intro l hl
      obtain ⟨p, hp, rfl⟩ := List.mem_map.mp hl
      exact (hfacts p hp).2
    rw [pySplit_joinNL _ hnl (by simp)]
    unfold parseSettings
    simpa using
      parseSettingsAux_eval (p0 :: d') [] (fun p hp => (hfacts p hp).1) (by simp) hnd

/-- Witness for C5 amended: the concrete table
`{"$0": "10", "$110": "8000"}`. -/
theorem c5_settings_roundtrip_witness :
    settingsRoundTrip [("$0", "10"), ("$110", "8000")] =
      .ok [("$0", "10"), ("$110", "8000")] :=
  c5_settings_roundtrip [("$0", "10"), ("$110", "8000")]
    (by
      intro p hp
      rcases List.mem_cons.mp hp with rfl | hp'
      · exact ⟨"step pulse, usec", rfl⟩
      · rcases List.mem_cons.mp hp' with rfl | hp''
        · exact ⟨"x max rate, mm/min", rfl⟩
        · cases hp'')
    (by decide)
    (by decide)

end Scarif
